import Mathlib

set_option autoImplicit false

/-!
Verification of the sales-dashboard data pipeline
(`taipy_implementation/taipy_logic.py` and
`gradio_implementation/gradio_app.py`): data loader, filter engine,
aggregator and metrics, embedded as pure functions over lists of rows.

Dataframes of order records are modelled as `List Row`; monetary values
are modelled as rationals; calendar dates as year/month/day records
ordered through a numeric key.  The loader, which operates on raw CSV
frames whose set of columns is not fixed, is modelled separately by
`PyFrame`, a frame with an explicit list of column names.
-/

/-- Calendar date (no time component), as parsed from the CSV. -/
structure Date where
  year : Nat
  month : Nat
  day : Nat
deriving DecidableEq

/-- Numeric key giving the chronological order of dates. -/
def Date.key (d : Date) : Nat := d.year * 10000 + d.month * 100 + d.day

/-- One order-line row of the loaded dataset, with the `revenue` column
already present (the loader guarantees it). -/
structure Row where
  order_id : Nat
  order_date : Date
  customer_id : Nat
  customer_name : String
  product_id : Nat
  product_names : String
  categories : String
  quantity : Nat
  price : ℚ
  revenue : ℚ
deriving DecidableEq

/-- Python `str.capitalize`: first character upper-cased, the rest
lower-cased (as used by the Gradio variant on category labels). -/
def pyCapitalize (s : String) : String :=
  match s.data with
  | [] => ""
  | c :: cs => String.mk (c.toUpper :: cs.map Char.toLower)

/-- Scanning pass behind `pandasUnique`: emits each element not seen
before, threading the set of already-seen values. -/
def pandasUniqueGo {α : Type} [DecidableEq α] : List α → List α → List α
  | [], _ => []
  | a :: rest, seen =>
    if a ∈ seen then pandasUniqueGo rest seen
    else a :: pandasUniqueGo rest (a :: seen)

/-- Pandas `Series.unique`: the distinct values in order of first
appearance (also the model of `Series.nunique` via its length). -/
def pandasUnique {α : Type} [DecidableEq α] (l : List α) : List α :=
  pandasUniqueGo l []

theorem mem_pandasUniqueGo {α : Type} [DecidableEq α] :
    ∀ (l seen : List α) (x : α),
      x ∈ pandasUniqueGo l seen ↔ x ∈ l ∧ x ∉ seen
  | [], seen, x => by simp [pandasUniqueGo]
  | a :: rest, seen, x => by
    rw [pandasUniqueGo]
    by_cases ha : a ∈ seen
    · rw [if_pos ha, mem_pandasUniqueGo rest seen x]
      by_cases hxa : x = a
      · subst hxa
        simp [ha]
      · simp [hxa]
    · rw [if_neg ha]
      by_cases hxa : x = a
      · subst hxa
        simp [ha]
      · simp [List.mem_cons, mem_pandasUniqueGo rest (a :: seen) x, hxa]

theorem nodup_pandasUniqueGo {α : Type} [DecidableEq α] :
    ∀ (l seen : List α), (pandasUniqueGo l seen).Nodup
  | [], seen => by simp [pandasUniqueGo]
  | a :: rest, seen => by
    rw [pandasUniqueGo]
    by_cases ha : a ∈ seen
    · rw [if_pos ha]
      exact nodup_pandasUniqueGo rest seen
    · rw [if_neg ha]
      refine List.nodup_cons.mpr ⟨?_, nodup_pandasUniqueGo rest (a :: seen)⟩
      intro hmem
      have := (mem_pandasUniqueGo rest (a :: seen) a).mp hmem
      exact this.2 (List.mem_cons_self a seen)

theorem mem_pandasUnique {α : Type} [DecidableEq α] (l : List α) (x : α) :
    x ∈ pandasUnique l ↔ x ∈ l := by
  rw [pandasUnique, mem_pandasUniqueGo]
  simp

theorem nodup_pandasUnique {α : Type} [DecidableEq α] (l : List α) :
    (pandasUnique l).Nodup :=
  nodup_pandasUniqueGo l []

theorem pandasUnique_length_pos {α : Type} [DecidableEq α] (a : α) (rest : List α) :
    0 < (pandasUnique (a :: rest)).length := by
  rw [pandasUnique, pandasUniqueGo]
  simp

/-- Raw CSV frame as seen by the loader: the list of column names read
from the header, and the numeric contents of each column (columns whose
name is absent from `cols` are irrelevant). -/
structure PyFrame where
  cols : List String
  col : String → List ℚ

/-- Pandas column assignment `df[name] = v`: the column list gains
`name` if it is new, and lookups of `name` now return `v`. -/
def PyFrame.setCol (t : PyFrame) (name : String) (v : List ℚ) : PyFrame :=
  { cols := if name ∈ t.cols then t.cols else t.cols ++ [name],
    col := fun c => if c = name then v else t.col c }

/-- Loader body of `load_and_process_csv_data` after a successful
`read_csv`: if a `total` column exists, `revenue` is assigned from it;
otherwise, if no `revenue` column exists, it is assigned
`quantity * price`; otherwise the frame is returned unchanged. -/
def load_and_process_csv_data (raw_data : PyFrame) : PyFrame :=
  if "total" ∈ raw_data.cols then
    raw_data.setCol "revenue" (raw_data.col "total")
  else if "revenue" ∉ raw_data.cols then
    raw_data.setCol "revenue"
      (List.zipWith (fun q p => q * p) (raw_data.col "quantity") (raw_data.col "price"))
  else
    raw_data

/-- The frame returned when loading fails. -/
def emptyFrame : PyFrame := { cols := [], col := fun _ => [] }

/-- Whole loader including its `try/except`: the `read_csv` attempt
either yields a raw frame or an error message; on error the loader
returns the empty frame together with a printed diagnostic line
(modelled as the second component). -/
def load_csv_result (attempt : Except String PyFrame) : PyFrame × List String :=
  match attempt with
  | Except.ok raw_data => (load_and_process_csv_data raw_data, [])
  | Except.error e => (emptyFrame, ["Error loading CSV: " ++ e])

/-- Gradio `load_csv_data` body on a successfully read frame: the
`read_csv` result (with its dtype coercions) is stored as-is; unlike
the Taipy loader, no `revenue` column is created. -/
def gradio_load_csv_data (raw_data : PyFrame) : PyFrame := raw_data

/-- Gradio `load_csv_data` seen through the outcome of `read_csv`:
there is no `try/except` around it, so a read error is passed through
to the caller rather than converted into an empty dataset. -/
def gradio_load_csv_result (attempt : Except String PyFrame) :
    Except String PyFrame :=
  match attempt with
  | Except.ok raw_data => Except.ok (gradio_load_csv_data raw_data)
  | Except.error e => Except.error e

/-- Row predicate for the inclusive date-range test
`(order_date >= start) & (order_date <= end)`. -/
def inRange (s e : Date) (r : Row) : Bool :=
  decide (s.key ≤ r.order_date.key) && decide (r.order_date.key ≤ e.key)

/-- Taipy filter: date-range restriction followed by an equality
restriction on `categories` unless the sentinel is selected. -/
def filter_data_by_date_and_category
    (raw_data : List Row) (start_date end_date : Date)
    (selected_category : String) : List Row :=
  if raw_data.isEmpty then raw_data
  else
    let filtered_data := raw_data.filter (inRange start_date end_date)
    if selected_category ≠ "All Categories" then
      filtered_data.filter fun r => decide (r.categories = selected_category)
    else filtered_data

/-- Gradio filter: same date-range restriction, but the category test
compares the capitalized stored label against the selected label. -/
def filter_data (csv_data : List Row) (start_date end_date : Date)
    (category : String) : List Row :=
  let df := csv_data.filter (inRange start_date end_date)
  if category ≠ "All Categories" then
    df.filter fun r => decide (pyCapitalize r.categories = category)
  else df

/-- Ascending order on strings, used by pandas `groupby` to sort group
keys. -/
def strAsc (a b : String) : Prop := a ≤ b

instance : DecidableRel strAsc := fun x y => inferInstanceAs (Decidable (x ≤ y))

/-- Chronological order on dates, used by pandas `groupby` on the date
column. -/
def dateAsc (a b : Date) : Prop := a.key ≤ b.key

instance : DecidableRel dateAsc := fun a b => Nat.decLe a.key b.key

instance : IsTotal Date dateAsc := ⟨fun a b => Nat.le_total a.key b.key⟩

instance : IsTrans Date dateAsc := ⟨fun _ _ _ h1 h2 => le_trans h1 h2⟩

/-- Descending order on the summed-revenue component of a grouped pair,
used by `sort_values(ascending=False)`. -/
def revDesc {κ : Type} (a b : κ × ℚ) : Prop := b.2 ≤ a.2

instance {κ : Type} : DecidableRel (α := κ × ℚ) revDesc :=
  fun a b => inferInstanceAs (Decidable (b.2 ≤ a.2))

instance {κ : Type} : IsTotal (κ × ℚ) revDesc := ⟨fun a b => le_total b.2 a.2⟩

instance {κ : Type} : IsTrans (κ × ℚ) revDesc :=
  ⟨fun _ _ _ h1 h2 => le_trans h2 h1⟩

/-- Chronological order on the date component of a grouped pair, used
by `sort_values("order_date")`. -/
def dateAscPair (a b : Date × ℚ) : Prop := a.1.key ≤ b.1.key

instance : DecidableRel dateAscPair := fun a b => Nat.decLe a.1.key b.1.key

instance : IsTotal (Date × ℚ) dateAscPair := ⟨fun a b => Nat.le_total a.1.key b.1.key⟩

instance : IsTrans (Date × ℚ) dateAscPair := ⟨fun _ _ _ h1 h2 => le_trans h1 h2⟩

/-- Pandas `df.groupby(key)[val].sum().reset_index()`: one pair per
distinct key (keys sorted ascending, as `groupby` sorts them), paired
with the sum of `val` over the rows having that key. -/
def pandasGroupSum {κ : Type} [DecidableEq κ]
    (ord : κ → κ → Prop) [DecidableRel ord]
    (key : Row → κ) (val : Row → ℚ) (l : List Row) : List (κ × ℚ) :=
  (List.insertionSort ord (pandasUnique (l.map key))).map
    fun k => (k, ((l.filter fun r => decide (key r = k)).map val).sum)

/-- Dataframe result of an aggregation: the column names of the frame
and its rows. -/
structure Frame (α : Type) where
  cols : List String
  rows : List α
deriving DecidableEq

/-- Taipy `create_revenue_data`: revenue summed per date, sorted by
date ascending; an empty input yields the empty frame whose columns are
still named. -/
def create_revenue_data (filtered_data : List Row) : Frame (Date × ℚ) :=
  if filtered_data.isEmpty then ⟨["order_date", "revenue"], []⟩
  else ⟨["order_date", "revenue"],
    List.insertionSort dateAscPair
      (pandasGroupSum dateAsc (fun r => r.order_date) Row.revenue filtered_data)⟩

/-- Taipy `create_category_data`: revenue summed per category, sorted
by revenue descending. -/
def create_category_data (filtered_data : List Row) : Frame (String × ℚ) :=
  if filtered_data.isEmpty then ⟨["categories", "revenue"], []⟩
  else ⟨["categories", "revenue"],
    List.insertionSort revDesc
      (pandasGroupSum strAsc (fun r => r.categories) Row.revenue filtered_data)⟩

/-- Taipy `create_top_products_data`: revenue summed per product name,
sorted by revenue descending, truncated by `head(limit)`. -/
def create_top_products_data (filtered_data : List Row) (limit : Nat := 10) :
    Frame (String × ℚ) :=
  if filtered_data.isEmpty then ⟨["product_names", "revenue"], []⟩
  else ⟨["product_names", "revenue"],
    (List.insertionSort revDesc
      (pandasGroupSum strAsc (fun r => r.product_names) Row.revenue filtered_data)).take limit⟩

/-- Pandas `Series.idxmax`: the key of the first entry holding the
maximal value (only applied to nonempty series in the source). -/
def seriesIdxmax (s : List (String × ℚ)) : String :=
  match s with
  | [] => "N/A"
  | p :: rest => (rest.foldl (fun best q => if best.2 < q.2 then q else best) p).1

/-- Scalar metrics of `calculate_metrics`; `total_revenue` and
`avg_order_value` hold the numeric values that the Python f-strings
then render as dollar amounts. -/
structure Metrics where
  total_revenue : ℚ
  total_orders : Nat
  avg_order_value : ℚ
  top_category : String
deriving DecidableEq

/-- Taipy `calculate_metrics`: early return of zero metrics on empty
input; otherwise total revenue, distinct-order count, average order
value guarded by `max(total_orders, 1)`, and the top category by
grouped revenue. -/
def calculate_metrics (filtered_data : List Row) : Metrics :=
  if filtered_data.isEmpty then
    { total_revenue := 0, total_orders := 0, avg_order_value := 0,
      top_category := "N/A" }
  else
    let total_revenue := (filtered_data.map Row.revenue).sum
    let total_orders := (pandasUnique (filtered_data.map Row.order_id)).length
    let avg_order_value := total_revenue / ((max total_orders 1 : Nat) : ℚ)
    let top_category :=
      seriesIdxmax (pandasGroupSum strAsc (fun r => r.categories) Row.revenue filtered_data)
    { total_revenue := total_revenue, total_orders := total_orders,
      avg_order_value := avg_order_value, top_category := top_category }

/-- Gradio `get_dashboard_stats`: filters, returns `(0, 0, 0, "N/A")`
on an empty subset, and otherwise recomputes revenue as
`price * quantity`, sums it, counts distinct orders, guards the average
with `if total_orders else 0`, and capitalizes the top category. -/
def get_dashboard_stats (csv_data : List Row) (start_date end_date : Date)
    (category : String) : ℚ × Nat × ℚ × String :=
  let df := filter_data csv_data start_date end_date category
  if df.isEmpty then (0, 0, 0, "N/A")
  else
    let rev := fun (r : Row) => r.price * (r.quantity : ℚ)
    let total_revenue := (df.map rev).sum
    let total_orders := (pandasUnique (df.map Row.order_id)).length
    let avg_order_value :=
      if total_orders ≠ 0 then total_revenue / (total_orders : ℚ) else 0
    let cat_revenues :=
      List.insertionSort revDesc (pandasGroupSum strAsc (fun r => r.categories) rev df)
    let top_category :=
      match cat_revenues with
      | [] => "N/A"
      | p :: _ => p.1
    (total_revenue, total_orders, avg_order_value, pyCapitalize top_category)

/-- Gradio `get_plot_data`: filters, returns a frame with no columns
at all on an empty subset (`pd.DataFrame()`), and otherwise groups the
recomputed `price * quantity` revenue by date (group keys ascending)
and renames the date column to `date`. -/
def get_plot_data (csv_data : List Row) (start_date end_date : Date)
    (category : String) : Frame (Date × ℚ) :=
  let df := filter_data csv_data start_date end_date category
  if df.isEmpty then ⟨[], []⟩
  else ⟨["date", "revenue"],
    pandasGroupSum dateAsc (fun r => r.order_date)
      (fun r => r.price * (r.quantity : ℚ)) df⟩

/-- Taipy `get_categories_list`: the sentinel prepended to the distinct
category values of the data, or the sentinel alone for an empty frame. -/
def get_categories_list (raw_data : List Row) : List String :=
  if raw_data.isEmpty then ["All Categories"]
  else "All Categories" :: pandasUnique (raw_data.map Row.categories)

/-- Taipy `get_date_range`: fixed default bounds for an empty frame,
otherwise the minimum and maximum order dates. -/
def get_date_range (raw_data : List Row) : Date × Date :=
  match raw_data with
  | [] => (⟨2020, 1, 1⟩, ⟨2023, 12, 31⟩)
  | r :: rest =>
    ((rest.map Row.order_date).foldl
        (fun a b => if b.key < a.key then b else a) r.order_date,
     (rest.map Row.order_date).foldl
        (fun a b => if a.key < b.key then b else a) r.order_date)

/-- Output record of `process_data_changes` (the Python dict). -/
structure ProcessResult where
  filtered_data : List Row
  revenue_data : Frame (Date × ℚ)
  category_data : Frame (String × ℚ)
  top_products_data : Frame (String × ℚ)
  metrics : Metrics
deriving DecidableEq

/-- Taipy `process_data_changes`: the whole pipeline over one filter
change — filter, three aggregation views, scalar metrics. -/
def process_data_changes (raw_data : List Row) (start_date end_date : Date)
    (selected_category : String) : ProcessResult :=
  let filtered_data :=
    filter_data_by_date_and_category raw_data start_date end_date selected_category
  { filtered_data := filtered_data,
    revenue_data := create_revenue_data filtered_data,
    category_data := create_category_data filtered_data,
    top_products_data := create_top_products_data filtered_data,
    metrics := calculate_metrics filtered_data }

theorem sum_over_groups {κ : Type} [DecidableEq κ] (key : Row → κ) (val : Row → ℚ) :
    ∀ (keys : List κ) (l : List Row), keys.Nodup → (∀ r ∈ l, key r ∈ keys) →
      (keys.map fun k => ((l.filter fun r => decide (key r = k)).map val).sum).sum
        = (l.map val).sum := by
  intro keys
  induction keys with
  | nil =>
    intro l _ hcov
    cases l with
    | nil => simp
    | cons a t => exact absurd (hcov a (List.mem_cons_self a t)) (List.not_mem_nil _)
  | cons k ks ih =>
    intro l hnd hcov
    have hknotin : k ∉ ks := (List.nodup_cons.mp hnd).1
    have hnd2 : ks.Nodup := (List.nodup_cons.mp hnd).2
    have hperm := List.filter_append_perm (fun r => decide (key r = k)) l
    have hsum : ((l.filter fun r => decide (key r = k)).map val).sum
        + ((l.filter fun r => !decide (key r = k)).map val).sum = (l.map val).sum := by
      have h2 := (hperm.map val).sum_eq
      rw [List.map_append, List.sum_append] at h2
      exact h2
    have hcov2 : ∀ r ∈ l.filter (fun r => !decide (key r = k)), key r ∈ ks := by
      intro r hr
      have hm := List.mem_filter.mp hr
      have hk := hcov r hm.1
      cases List.mem_cons.mp hk with
      | inl h =>
        exfalso
        have hb := hm.2
        simp [h] at hb
      | inr h => exact h
    have ihapp := ih (l.filter fun r => !decide (key r = k)) hnd2 hcov2
    have hterm : (ks.map fun k2 =>
          (((l.filter fun r => !decide (key r = k)).filter
            fun r => decide (key r = k2)).map val).sum)
        = ks.map fun k2 => ((l.filter fun r => decide (key r = k2)).map val).sum := by
      apply List.map_congr_left
      intro k2 hk2
      congr 1
      rw [List.filter_filter]
      apply congrArg (List.map val)
      apply List.filter_congr
      intro a _
      by_cases h : key a = k2
      · have hne : k2 ≠ k := fun hh => hknotin (hh ▸ hk2)
        simp [h, hne]
      · simp [h]
    rw [List.map_cons, List.sum_cons, ← hsum]
    congr 1
    rw [← ihapp]
    exact (congrArg List.sum hterm).symm

theorem mem_pandasGroupSum {κ : Type} [DecidableEq κ]
    (ord : κ → κ → Prop) [DecidableRel ord]
    (key : Row → κ) (val : Row → ℚ) (l : List Row) (p : κ × ℚ) :
    p ∈ pandasGroupSum ord key val l ↔
      p.1 ∈ l.map key
      ∧ p.2 = ((l.filter fun r => decide (key r = p.1)).map val).sum := by
  rw [pandasGroupSum, List.mem_map]
  constructor
  · rintro ⟨k, hk, rfl⟩
    refine ⟨?_, rfl⟩
    exact (mem_pandasUnique _ _).mp ((List.perm_insertionSort ord _).mem_iff.mp hk)
  · intro h
    refine ⟨p.1, ?_, ?_⟩
    · exact (List.perm_insertionSort ord _).mem_iff.mpr ((mem_pandasUnique _ _).mpr h.1)
    · obtain ⟨a, b⟩ := p
      simp only at h ⊢
      rw [h.2]

theorem pandasGroupSum_sum_snd {κ : Type} [DecidableEq κ]
    (ord : κ → κ → Prop) [DecidableRel ord]
    (key : Row → κ) (val : Row → ℚ) (l : List Row) :
    ((pandasGroupSum ord key val l).map Prod.snd).sum = (l.map val).sum := by
  rw [pandasGroupSum, List.map_map]
  have hcomp : (Prod.snd ∘ fun k =>
        (k, ((l.filter fun r => decide (key r = k)).map val).sum))
      = fun k => ((l.filter fun r => decide (key r = k)).map val).sum := rfl
  rw [hcomp]
  apply sum_over_groups key val
  · exact (List.perm_insertionSort ord _).nodup_iff.mpr (nodup_pandasUnique _)
  · intro r hr
    exact (List.perm_insertionSort ord _).mem_iff.mpr
      ((mem_pandasUnique _ _).mpr (List.mem_map_of_mem key hr))

theorem pandasGroupSum_length {κ : Type} [DecidableEq κ]
    (ord : κ → κ → Prop) [DecidableRel ord]
    (key : Row → κ) (val : Row → ℚ) (l : List Row) :
    (pandasGroupSum ord key val l).length = (pandasUnique (l.map key)).length := by
  rw [pandasGroupSum, List.length_map, (List.perm_insertionSort ord _).length_eq]

theorem pandasGroupSum_sorted_dates (val : Row → ℚ) (l : List Row) :
    List.Sorted dateAscPair
      (pandasGroupSum dateAsc (fun r => r.order_date) val l) := by
  rw [pandasGroupSum]
  exact List.Pairwise.map _ (fun a b h => h)
    (List.sorted_insertionSort dateAsc _)

/-- A sample raw frame whose source carries a `total` column. -/
def sampleRawFrame : PyFrame :=
  { cols := ["order_id", "order_date", "quantity", "price", "total"],
    col := fun c =>
      if c = "total" then [10]
      else if c = "quantity" then [2]
      else if c = "price" then [3]
      else [] }

/-- A sample electronics order line used by the concrete witnesses. -/
def sampleRow : Row :=
  { order_id := 1, order_date := ⟨2023, 1, 1⟩, customer_id := 7,
    customer_name := "Ada", product_id := 3, product_names := "Laptop",
    categories := "Electronics", quantity := 2, price := 5, revenue := 10 }

/-- A sample order line whose source `total` value (7) disagrees with
`price * quantity` (10), exposing which of the two a variant reports. -/
def sampleTotalRow : Row :=
  { order_id := 2, order_date := ⟨2023, 1, 2⟩, customer_id := 8,
    customer_name := "Grace", product_id := 4, product_names := "Monitor",
    categories := "Electronics", quantity := 2, price := 5, revenue := 7 }

/-- A sample order line whose stored category label is lower-case. -/
def lowercaseRow : Row :=
  { order_id := 3, order_date := ⟨2023, 1, 3⟩, customer_id := 9,
    customer_name := "Edsger", product_id := 5, product_names := "Pen",
    categories := "electronics", quantity := 1, price := 2, revenue := 2 }

/-- C1: for every filtered subset, the revenue values of the
per-category series produced by `create_category_data` sum to the
`total_revenue` metric that `calculate_metrics` computes from the same
subset. -/
theorem claim_C1_category_sum_eq_total_revenue (filtered_data : List Row) :
    ((create_category_data filtered_data).rows.map Prod.snd).sum
      = (calculate_metrics filtered_data).total_revenue := by
  cases hE : filtered_data.isEmpty with
  | true => simp [create_category_data, calculate_metrics, hE]
  | false =>
    rw [create_category_data, calculate_metrics]
    simp only [hE, Bool.false_eq_true, if_false]
    have hperm :=
      (List.perm_insertionSort (revDesc (κ := String))
        (pandasGroupSum strAsc (fun r => r.categories) Row.revenue filtered_data)).map
        Prod.snd
    rw [hperm.sum_eq, pandasGroupSum_sum_snd]

/-- C2 (amended): the Taipy loader always returns a frame with a
`revenue` column; a source `total` column is copied into it verbatim; a
source `revenue` column (with no `total` column) is left untouched, the
frame being returned unchanged; only when both are absent is revenue
derived as `quantity * price`.  The Gradio variant diverges: its loader
adds no column at all, and its dashboard stats always recompute revenue
as `price * quantity` over the filtered rows, ignoring the stored
source value. -/
theorem claim_C2_loader_revenue_canonical (raw_data : PyFrame) :
    "revenue" ∈ (load_and_process_csv_data raw_data).cols
    ∧ ("total" ∈ raw_data.cols →
        (load_and_process_csv_data raw_data).col "revenue" = raw_data.col "total")
    ∧ ("total" ∉ raw_data.cols → "revenue" ∈ raw_data.cols →
        load_and_process_csv_data raw_data = raw_data)
    ∧ ("total" ∉ raw_data.cols → "revenue" ∉ raw_data.cols →
        (load_and_process_csv_data raw_data).col "revenue"
          = List.zipWith (fun q p => q * p)
              (raw_data.col "quantity") (raw_data.col "price"))
    ∧ (∀ t : PyFrame, (gradio_load_csv_data t).cols = t.cols)
    ∧ ∀ (csv_data : List Row) (start_date end_date : Date) (category : String),
        (filter_data csv_data start_date end_date category).isEmpty = false →
        (get_dashboard_stats csv_data start_date end_date category).1
          = ((filter_data csv_data start_date end_date category).map
              fun r => r.price * (r.quantity : ℚ)).sum := by
  refine ⟨?_, ?_, ?_, ?_, ?_, ?_⟩
  · rw [load_and_process_csv_data]
    by_cases ht : "total" ∈ raw_data.cols
    · rw [if_pos ht]
      rw [PyFrame.setCol]
      by_cases hr : "revenue" ∈ raw_data.cols
      · simp [hr]
      · simp [hr]
    · rw [if_neg ht]
      by_cases hr : "revenue" ∈ raw_data.cols
      · simp [hr]
      · simp [hr, PyFrame.setCol]
  · intro ht
    simp [load_and_process_csv_data, ht, PyFrame.setCol]
  · intro ht hr
    simp [load_and_process_csv_data, ht, hr]
  · intro ht hr
    simp [load_and_process_csv_data, ht, hr, PyFrame.setCol]
  · intro t
    rfl
  · intro csv_data start_date end_date category hdf
    rw [get_dashboard_stats]
    simp [hdf]

/-- C2, counterexample to the unamended claim: the Gradio loader adds
no `revenue` column to a source frame carrying `total`, and the Gradio
dashboard stats report `price * quantity` (10) for a row whose stored
source revenue value is 7 — the source value is recomputed, not
canonical. -/
theorem claim_C2_counterexample :
    "total" ∈ sampleRawFrame.cols
    ∧ "revenue" ∉ (gradio_load_csv_data sampleRawFrame).cols
    ∧ (get_dashboard_stats [sampleTotalRow] ⟨2023, 1, 1⟩ ⟨2023, 12, 31⟩
        "All Categories").1 ≠ ([sampleTotalRow].map Row.revenue).sum := by
  refine ⟨?_, ?_, ?_⟩
  · decide
  · decide
  · have h1 : (get_dashboard_stats [sampleTotalRow] ⟨2023, 1, 1⟩ ⟨2023, 12, 31⟩
        "All Categories").1 = 10 := by
      rw [get_dashboard_stats]
      norm_num [filter_data, inRange, sampleTotalRow, Date.key]
    have h2 : ([sampleTotalRow].map Row.revenue).sum = 7 := by
      norm_num [sampleTotalRow]
    rw [h1, h2]
    norm_num

/-- Witness for C2 at a concrete frame carrying a `total` column. -/
theorem claim_C2_witness :
    "total" ∈ sampleRawFrame.cols
    ∧ (load_and_process_csv_data sampleRawFrame).col "revenue"
        = sampleRawFrame.col "total" :=
  ⟨by decide, (claim_C2_loader_revenue_canonical sampleRawFrame).2.1 (by decide)⟩

/-- C3 (amended): a load attempt that fails with any error yields, in
the Taipy loader, the empty frame together with a diagnostic line as an
ordinary return value; the Gradio load path has no handler, so the same
failing outcome stays an error for its caller. -/
theorem claim_C3_load_failure_empty (attempt : Except String PyFrame) (e : String)
    (h : attempt = Except.error e) :
    ((load_csv_result attempt).1 = emptyFrame
      ∧ (load_csv_result attempt).2 = ["Error loading CSV: " ++ e])
    ∧ ∀ msg : String,
        gradio_load_csv_result (Except.error msg) = Except.error msg := by
  subst h
  exact ⟨⟨rfl, rfl⟩, fun msg => rfl⟩

/-- C3, counterexample to the unamended claim: the Gradio load path
passes a read failure through as the error itself — the caller gets the
error, not an empty dataset. -/
theorem claim_C3_counterexample :
    gradio_load_csv_result (Except.error "No such file or directory")
      = Except.error "No such file or directory"
    ∧ gradio_load_csv_result (Except.error "No such file or directory")
      ≠ Except.ok emptyFrame :=
  ⟨rfl, fun h => Except.noConfusion h⟩

/-- Witness for C3 at a concrete failing load. -/
theorem claim_C3_witness :
    (load_csv_result (Except.error "file not found")).1 = emptyFrame
    ∧ (load_csv_result (Except.error "file not found")).2
        = ["Error loading CSV: file not found"] :=
  (claim_C3_load_failure_empty _ "file not found" rfl).1

/-- C10: on the empty dataset, `get_date_range` returns the fixed
default bounds 2020-01-01 and 2023-12-31 and `get_categories_list`
returns the one-element sentinel list. -/
theorem claim_C10_empty_defaults :
    get_date_range [] = (⟨2020, 1, 1⟩, ⟨2023, 12, 31⟩)
    ∧ get_categories_list [] = ["All Categories"] := by
  exact ⟨rfl, rfl⟩

/-- C4: with the sentinel category the Taipy filter returns exactly the
rows whose order date lies in the inclusive range, and reversed bounds
(start after end) give an empty result for any dataset and category,
without error. -/
theorem claim_C4_inclusive_date_filter (raw_data : List Row)
    (start_date end_date : Date) (selected_category : String) :
    filter_data_by_date_and_category raw_data start_date end_date "All Categories"
      = raw_data.filter (inRange start_date end_date)
    ∧ (end_date.key < start_date.key →
        filter_data_by_date_and_category raw_data start_date end_date
          selected_category = []) := by
  constructor
  · cases raw_data with
    | nil => simp [filter_data_by_date_and_category]
    | cons a t => simp [filter_data_by_date_and_category]
  · intro hlt
    have hnil : raw_data.filter (inRange start_date end_date) = [] := by
      rw [List.filter_eq_nil_iff]
      intro r _
      rw [inRange]
      simp only [Bool.and_eq_true, decide_eq_true_eq, not_and]
      intro h1 h2
      omega
    cases raw_data with
    | nil => simp [filter_data_by_date_and_category]
    | cons a t =>
      rw [filter_data_by_date_and_category]
      simp only [List.isEmpty_cons, Bool.false_eq_true, if_false, hnil]
      by_cases hc : selected_category ≠ "All Categories"
      · simp [hc]
      · simp [hc]

/-- Witness for C4: reversed bounds on a one-row dataset give the empty
result. -/
theorem claim_C4_witness :
    Date.key ⟨2023, 12, 31⟩ < Date.key ⟨2024, 1, 1⟩
    ∧ filter_data_by_date_and_category [sampleRow] ⟨2024, 1, 1⟩ ⟨2023, 12, 31⟩
        "All Categories" = [] :=
  ⟨by decide,
    (claim_C4_inclusive_date_filter [sampleRow] ⟨2024, 1, 1⟩ ⟨2023, 12, 31⟩
      "All Categories").2 (by decide)⟩

/-- C5 (amended): with the sentinel "All Categories" neither variant
restricts by category; for any other selected value, a row passes the
Gradio filter exactly when its capitalized stored category equals the
selected label, and passes the Taipy filter exactly when its raw stored
category equals the selected value — both case-sensitive, with no
normalization in the Taipy variant. -/
theorem claim_C5_sentinel_and_capitalized_match (csv_data : List Row)
    (start_date end_date : Date) (category : String) (r : Row) :
    (r ∈ filter_data csv_data start_date end_date category ↔
      r ∈ csv_data
      ∧ start_date.key ≤ r.order_date.key
      ∧ r.order_date.key ≤ end_date.key
      ∧ (category = "All Categories" ∨ pyCapitalize r.categories = category))
    ∧ (r ∈ filter_data_by_date_and_category csv_data start_date end_date category ↔
      r ∈ csv_data
      ∧ start_date.key ≤ r.order_date.key
      ∧ r.order_date.key ≤ end_date.key
      ∧ (category = "All Categories" ∨ r.categories = category)) := by
  constructor
  · rw [filter_data]
    by_cases hc : category = "All Categories"
    · subst hc
      simp [List.mem_filter, inRange, and_assoc]
    · simp only [List.mem_filter, inRange, hc, false_or, Bool.and_eq_true,
        decide_eq_true_eq, ne_eq, not_false_iff, if_true, and_assoc]
  · cases csv_data with
    | nil => simp [filter_data_by_date_and_category]
    | cons a t =>
      rw [filter_data_by_date_and_category]
      simp only [List.isEmpty_cons, Bool.false_eq_true, if_false]
      by_cases hc : category = "All Categories"
      · subst hc
        simp [List.mem_filter, inRange, and_assoc]
      · simp only [List.mem_filter, inRange, hc, false_or, Bool.and_eq_true,
          decide_eq_true_eq, ne_eq, not_false_iff, if_true, and_assoc]

/-- C5, counterexample to the unamended claim: the Taipy filter matches
the raw stored label, so the capitalized label "Electronics" selects
nothing from a dataset whose stored (and dashboard-offered) label is
"electronics", while the raw label selects the row. -/
theorem claim_C5_counterexample :
    pyCapitalize lowercaseRow.categories = "Electronics"
    ∧ filter_data_by_date_and_category [lowercaseRow] ⟨2023, 1, 1⟩
        ⟨2023, 12, 31⟩ "Electronics" = []
    ∧ filter_data_by_date_and_category [lowercaseRow] ⟨2023, 1, 1⟩
        ⟨2023, 12, 31⟩ "electronics" = [lowercaseRow]
    ∧ get_categories_list [lowercaseRow] = ["All Categories", "electronics"] := by
  refine ⟨?_, ?_, ?_, ?_⟩
  · decide
  · decide
  · decide
  · decide

/-- C6: the top-products rows sum revenue per product name, are sorted
by revenue descending, never exceed 10 rows, and contain every distinct
product when fewer than 10 exist. -/
theorem claim_C6_top_products (filtered_data : List Row) :
    (create_top_products_data filtered_data 10).rows.length ≤ 10
    ∧ List.Sorted revDesc (create_top_products_data filtered_data 10).rows
    ∧ ((pandasUnique (filtered_data.map fun r => r.product_names)).length < 10 →
        ∀ p ∈ filtered_data.map (fun r => r.product_names),
          ∃ q, (p, q) ∈ (create_top_products_data filtered_data 10).rows)
    ∧ ∀ pr ∈ (create_top_products_data filtered_data 10).rows,
        pr.2 = ((filtered_data.filter fun r =>
          decide (r.product_names = pr.1)).map Row.revenue).sum := by
  cases hE : filtered_data.isEmpty with
  | true =>
    have h0 : filtered_data = [] := List.isEmpty_iff.mp hE
    subst h0
    refine ⟨?_, ?_, ?_, ?_⟩
    · rw [create_top_products_data]
      simp
    · rw [create_top_products_data]
      simp
    · intro _ p hp
      simp at hp
    · intro pr hpr
      rw [create_top_products_data] at hpr
      simp at hpr
  | false =>
    have hrows : (create_top_products_data filtered_data 10).rows
        = (List.insertionSort revDesc
            (pandasGroupSum strAsc (fun r => r.product_names)
              Row.revenue filtered_data)).take 10 := by
      rw [create_top_products_data]
      simp [hE]
    refine ⟨?_, ?_, ?_, ?_⟩
    · rw [hrows]
      exact List.length_take_le 10 _
    · rw [hrows]
      exact List.Pairwise.sublist (List.take_sublist 10 _)
        (List.sorted_insertionSort revDesc _)
    · intro hlen p hp
      have hlen2 : (List.insertionSort revDesc
          (pandasGroupSum strAsc (fun r => r.product_names)
            Row.revenue filtered_data)).length ≤ 10 := by
        rw [(List.perm_insertionSort revDesc _).length_eq, pandasGroupSum_length]
        omega
      have htake := List.take_of_length_le hlen2
      have hmem : (p, ((filtered_data.filter fun r =>
            decide (r.product_names = p)).map Row.revenue).sum)
          ∈ pandasGroupSum strAsc (fun r => r.product_names) Row.revenue filtered_data :=
        (mem_pandasGroupSum strAsc _ Row.revenue filtered_data _).mpr ⟨hp, rfl⟩
      refine ⟨((filtered_data.filter fun r =>
        decide (r.product_names = p)).map Row.revenue).sum, ?_⟩
      rw [hrows, htake]
      exact (List.perm_insertionSort revDesc _).mem_iff.mpr hmem
    · intro pr hpr
      rw [hrows] at hpr
      have h1 := List.mem_of_mem_take hpr
      have h2 := (List.perm_insertionSort revDesc _).mem_iff.mp h1
      exact ((mem_pandasGroupSum strAsc _ Row.revenue filtered_data pr).mp h2).2

/-- Witness for C6: with one row there is one distinct product and it
appears in the top-products rows. -/
theorem claim_C6_witness :
    (pandasUnique ([sampleRow].map fun r => r.product_names)).length < 10
    ∧ ∃ q, ("Laptop", q) ∈ (create_top_products_data [sampleRow] 10).rows :=
  ⟨by decide,
    (claim_C6_top_products [sampleRow]).2.2.1 (by decide) "Laptop" (by decide)⟩

/-- C7: empty filtered input gives the zero metrics with top category
"N/A", and the average order value always equals total revenue divided
by total orders, defined as zero when there are zero orders. -/
theorem claim_C7_metrics_empty_and_avg_guard (filtered_data : List Row) :
    (filtered_data.isEmpty = true →
      calculate_metrics filtered_data =
        { total_revenue := 0, total_orders := 0, avg_order_value := 0,
          top_category := "N/A" })
    ∧ ((calculate_metrics filtered_data).avg_order_value =
        if (calculate_metrics filtered_data).total_orders = 0 then 0
        else (calculate_metrics filtered_data).total_revenue
              / ((calculate_metrics filtered_data).total_orders : ℚ)) := by
  cases hE : filtered_data.isEmpty with
  | true =>
    have h0 : filtered_data = [] := List.isEmpty_iff.mp hE
    subst h0
    constructor
    · intro _
      rfl
    · simp [calculate_metrics]
  | false =>
    obtain ⟨a, t, rfl⟩ : ∃ a t, filtered_data = a :: t := by
      cases filtered_data with
      | nil => simp at hE
      | cons a t => exact ⟨a, t, rfl⟩
    constructor
    · intro h
      simp at h
    · rw [calculate_metrics]
      simp only [List.isEmpty_cons, Bool.false_eq_true, if_false]
      have hpos : 0 < (pandasUnique ((a :: t).map Row.order_id)).length := by
        rw [List.map_cons]
        exact pandasUnique_length_pos _ _
      have hne : (pandasUnique ((a :: t).map Row.order_id)).length ≠ 0 := by omega
      have hmax : max (pandasUnique ((a :: t).map Row.order_id)).length 1
          = (pandasUnique ((a :: t).map Row.order_id)).length := by omega
      rw [if_neg hne, hmax]

/-- Witness for C7 at the empty filtered input. -/
theorem claim_C7_witness :
    calculate_metrics [] =
      { total_revenue := 0, total_orders := 0, avg_order_value := 0,
        top_category := "N/A" } :=
  (claim_C7_metrics_empty_and_avg_guard []).1 rfl

/-- C8 (amended): the revenue series sums revenue per date and is
ordered by date ascending in both variants; on empty input the Taipy
`create_revenue_data` yields no rows while the `order_date, revenue`
column shape is still present, whereas the Gradio `get_plot_data`
yields an empty frame with no named columns. -/
theorem claim_C8_revenue_series_shape (filtered_data : List Row) :
    (create_revenue_data filtered_data).cols = ["order_date", "revenue"]
    ∧ List.Sorted dateAscPair (create_revenue_data filtered_data).rows
    ∧ (filtered_data.isEmpty = true → (create_revenue_data filtered_data).rows = [])
    ∧ (∀ p ∈ (create_revenue_data filtered_data).rows,
        p.2 = ((filtered_data.filter fun r =>
          decide (r.order_date = p.1)).map Row.revenue).sum)
    ∧ (∀ d : Date, (∃ q, (d, q) ∈ (create_revenue_data filtered_data).rows)
        ↔ d ∈ filtered_data.map Row.order_date)
    ∧ ∀ (csv_data : List Row) (s2 e2 : Date) (c2 : String),
        ((filter_data csv_data s2 e2 c2).isEmpty = true →
          get_plot_data csv_data s2 e2 c2 = ⟨[], []⟩)
        ∧ ((filter_data csv_data s2 e2 c2).isEmpty = false →
          (get_plot_data csv_data s2 e2 c2).cols = ["date", "revenue"])
        ∧ List.Sorted dateAscPair (get_plot_data csv_data s2 e2 c2).rows
        ∧ ∀ p ∈ (get_plot_data csv_data s2 e2 c2).rows,
            p.2 = (((filter_data csv_data s2 e2 c2).filter fun r =>
              decide (r.order_date = p.1)).map
                fun r => r.price * (r.quantity : ℚ)).sum := by
  have hgradio : ∀ (csv_data : List Row) (s2 e2 : Date) (c2 : String),
      ((filter_data csv_data s2 e2 c2).isEmpty = true →
        get_plot_data csv_data s2 e2 c2 = ⟨[], []⟩)
      ∧ ((filter_data csv_data s2 e2 c2).isEmpty = false →
        (get_plot_data csv_data s2 e2 c2).cols = ["date", "revenue"])
      ∧ List.Sorted dateAscPair (get_plot_data csv_data s2 e2 c2).rows
      ∧ ∀ p ∈ (get_plot_data csv_data s2 e2 c2).rows,
          p.2 = (((filter_data csv_data s2 e2 c2).filter fun r =>
            decide (r.order_date = p.1)).map
              fun r => r.price * (r.quantity : ℚ)).sum := by
    intro csv_data s2 e2 c2
    cases hDF : (filter_data csv_data s2 e2 c2).isEmpty with
    | true =>
      have hplot : get_plot_data csv_data s2 e2 c2 = ⟨[], []⟩ := by
        rw [get_plot_data]
        simp [hDF]
      refine ⟨fun _ => hplot, ?_, ?_, ?_⟩
      · intro h
        exact Bool.noConfusion h
      · rw [hplot]
        simp
      · intro p hp
        rw [hplot] at hp
        simp at hp
    | false =>
      have hplot : get_plot_data csv_data s2 e2 c2
          = ⟨["date", "revenue"],
            pandasGroupSum dateAsc (fun r => r.order_date)
              (fun r => r.price * (r.quantity : ℚ))
              (filter_data csv_data s2 e2 c2)⟩ := by
        rw [get_plot_data]
        simp [hDF]
      refine ⟨?_, fun _ => ?_, ?_, ?_⟩
      · intro h
        exact Bool.noConfusion h
      · rw [hplot]
      · rw [hplot]
        exact pandasGroupSum_sorted_dates _ _
      · intro p hp
        rw [hplot] at hp
        exact ((mem_pandasGroupSum dateAsc _ _
          (filter_data csv_data s2 e2 c2) p).mp hp).2
  cases hE : filtered_data.isEmpty with
  | true =>
    have h0 : filtered_data = [] := List.isEmpty_iff.mp hE
    subst h0
    refine ⟨rfl, ?_, ?_, ?_, ?_, hgradio⟩
    · rw [create_revenue_data]
      simp
    · intro _
      rfl
    · intro pr hpr
      rw [create_revenue_data] at hpr
      simp at hpr
    · intro d
      rw [create_revenue_data]
      simp
  | false =>
    have hrows : (create_revenue_data filtered_data).rows
        = List.insertionSort dateAscPair
            (pandasGroupSum dateAsc (fun r => r.order_date)
              Row.revenue filtered_data) := by
      rw [create_revenue_data]
      simp [hE]
    have hcols : (create_revenue_data filtered_data).cols
        = ["order_date", "revenue"] := by
      rw [create_revenue_data]
      simp [hE]
    refine ⟨hcols, ?_, ?_, ?_, ?_, hgradio⟩
    · rw [hrows]
      exact List.sorted_insertionSort dateAscPair _
    · intro h
      simp [hE] at h
    · intro pr hpr
      rw [hrows] at hpr
      have h2 := (List.perm_insertionSort dateAscPair _).mem_iff.mp hpr
      exact ((mem_pandasGroupSum dateAsc _ Row.revenue filtered_data pr).mp h2).2
    · intro d
      constructor
      · rintro ⟨q, hq⟩
        rw [hrows] at hq
        have h2 := (List.perm_insertionSort dateAscPair _).mem_iff.mp hq
        exact ((mem_pandasGroupSum dateAsc _ Row.revenue filtered_data (d, q)).mp h2).1
      · intro hd
        refine ⟨((filtered_data.filter fun r =>
          decide (r.order_date = d)).map Row.revenue).sum, ?_⟩
        rw [hrows]
        exact (List.perm_insertionSort dateAscPair _).mem_iff.mpr
          ((mem_pandasGroupSum dateAsc _ Row.revenue filtered_data _).mpr ⟨hd, rfl⟩)

/-- C8, counterexample to the unamended claim: on an empty subset the
Gradio `get_plot_data` returns a frame with no named columns at all,
not an empty series with the `date, revenue` shape. -/
theorem claim_C8_counterexample :
    (get_plot_data [] ⟨2023, 1, 1⟩ ⟨2023, 12, 31⟩ "All Categories").cols = []
    ∧ (get_plot_data [] ⟨2023, 1, 1⟩ ⟨2023, 12, 31⟩ "All Categories").rows = [] := by
  refine ⟨?_, ?_⟩
  · decide
  · decide

/-- Witness for C8 at the empty filtered input. -/
theorem claim_C8_witness : (create_revenue_data []).rows = [] :=
  (claim_C8_revenue_series_shape []).2.2.1 rfl

/-- C9: the pipeline of `process_data_changes` is a pure function of
its inputs — two runs on the same dataset and filters produce identical
filtered data, series and metrics. -/
theorem claim_C9_process_deterministic (raw_one raw_two : List Row)
    (start_date end_date : Date) (selected_category : String)
    (h : raw_one = raw_two) :
    process_data_changes raw_one start_date end_date selected_category
      = process_data_changes raw_two start_date end_date selected_category := by
  rw [h]

/-- Witness for C9: two identical runs over the sample dataset agree. -/
theorem claim_C9_witness :
    process_data_changes [sampleRow] ⟨2023, 1, 1⟩ ⟨2023, 12, 31⟩ "All Categories"
      = process_data_changes [sampleRow] ⟨2023, 1, 1⟩ ⟨2023, 12, 31⟩
          "All Categories" :=
  claim_C9_process_deterministic [sampleRow] [sampleRow] ⟨2023, 1, 1⟩
    ⟨2023, 12, 31⟩ "All Categories" rfl
